import Mathlib

/-!
Verification of the rental lifecycle and billing engine of the
YYMVP Car Rental Management System.

The definitions below are a shallow embedding of
`rentals/models.py`, `rentals/views.py` and
`rentals/management/commands/update_expired_rentals.py`.
Monetary values (Python `Decimal` with two decimal places) are embedded
as exact rationals; dates and timestamps as integers (day numbers and
epoch seconds).  Database rows are lists of records keyed by primary
key; per-row `save()` calls become pointwise updates of those lists.
-/

namespace CarRental

/-- Lifecycle status of a rental order (`Rental.RENTAL_STATUS_CHOICES`). -/
inductive RentalStatus
  | PENDING
  | ONGOING
  | COMPLETED
  | CANCELLED
deriving DecidableEq, Repr

/-- Settlement status (`Rental.SETTLEMENT_STATUS_CHOICES`); `PARTPAID`
embeds the source's partially-settled choice. -/
inductive SettlementStatus
  | UNSETTLED
  | PARTPAID
  | SETTLED
deriving DecidableEq, Repr

/-- Vehicle availability status, the subset of the fleet registry used here. -/
inductive VehicleStatus
  | AVAILABLE
  | RENTED
deriving DecidableEq, Repr

/-- Payment transaction kind (`transaction_type` on the accounts ledger). -/
inductive TransactionType
  | CHARGE
  | REFUND
deriving DecidableEq, Repr

/-- Payment record status. -/
inductive PaymentStatus
  | PAID
  | REFUNDED
  | PENDINGPAY
  | FAILED
deriving DecidableEq, Repr

/-- Vehicle record: the fields of `vehicles.models.Vehicle` consumed by the
rental engine (`daily_rate`, `status`, primary key). -/
structure Vehicle where
  id : Nat
  daily_rate : ℚ
  status : VehicleStatus
deriving DecidableEq, Repr

/-- Customer record: the fields of `customers.models.Customer` consumed by the
rental engine (`member_level`, the nullable linked `user` account, primary key). -/
structure Customer where
  id : Nat
  member_level : String
  user : Option Nat
deriving DecidableEq, Repr

/-- Payment record.  Modelled from the spec: the `accounts` app is not under
`src/`; the fields follow §3 (amount, transaction kind, status, timestamp) and
the uses in `update_expired_rentals.py` (rental foreign key, nullable user
account, `transaction_id`, `payment_method`, `paid_at`). -/
structure Payment where
  rentalId : Nat
  user : Option Nat
  amount : ℚ
  payment_method : String
  transaction_type : TransactionType
  status : PaymentStatus
  created_at : ℤ
  paid_at : Option ℤ
  transaction_id : String
deriving DecidableEq, Repr

/-- Rental order: the fields of `rentals.models.Rental`. -/
structure Rental where
  id : Nat
  customerId : Nat
  vehicleId : Nat
  start_date : ℤ
  end_date : ℤ
  actual_return_date : Option ℤ
  total_amount : ℚ
  deposit : ℚ
  pickup_location : String
  return_location : Option String
  is_cross_location_return : Bool
  cross_location_fee : ℚ
  status : RentalStatus
  notes : String
  settlement_status : SettlementStatus
  settled_at : Option ℤ
  amount_paid : ℚ
  amount_refunded : ℚ
deriving DecidableEq, Repr

/-- `Rental.clean` (models.py): date-order validation; returns the first
raised `ValidationError` message, `none` when the record is valid. -/
def Rental.cleanError (r : Rental) (today : ℤ) : Option String :=
  if r.start_date > r.end_date then some ("end date before start date")
  else
    match r.actual_return_date with
    | none => none
    | some d =>
        if d < r.start_date then some ("actual return before start date")
        else if d > today then some ("actual return after today")
        else none

/-- `Rental.save` (models.py): the defaulting performed on every full save —
recompute `total_amount` when falsy, default the deposit to ten times the
daily rate, default `return_location` and `cross_location_fee` for
cross-location returns. -/
def Rental.saveDefaults (r : Rental) (daily_rate : ℚ) : Rental :=
  let r1 := if r.total_amount = 0 then
      { r with total_amount := daily_rate * (((r.end_date - r.start_date) + 1 : ℤ) : ℚ) }
    else r
  let r2 := if r1.deposit = 0 then { r1 with deposit := daily_rate * 10 } else r1
  let r3 := if r2.is_cross_location_return ∧ r2.return_location = none then
      { r2 with return_location := some r2.pickup_location }
    else r2
  if r3.is_cross_location_return ∧ r3.cross_location_fee = 0 then
    { r3 with cross_location_fee := daily_rate * (1 / 2) }
  else r3

/-- `Rental.calculate_order_total` (models.py): base amount plus deposit plus
the cross-location fee when the cross-location flag is set. -/
def Rental.calculate_order_total (r : Rental) : ℚ :=
  r.total_amount + r.deposit +
    (if r.is_cross_location_return then r.cross_location_fee else 0)

/-- Sum of the amounts of `PAID` `CHARGE` payments of one rental
(the `paid_total` aggregate in `Rental.refresh_financials`). -/
def chargeTotalPaid (ps : List Payment) (rid : Nat) : ℚ :=
  (ps.filter (fun p =>
      decide (p.rentalId = rid ∧ p.status = .PAID ∧ p.transaction_type = .CHARGE))).foldr
    (fun p acc => p.amount + acc) 0

/-- Sum of the amounts of `REFUNDED` `REFUND` payments of one rental
(the `refunded_total` aggregate in `Rental.refresh_financials`). -/
def refundTotalRefunded (ps : List Payment) (rid : Nat) : ℚ :=
  (ps.filter (fun p =>
      decide (p.rentalId = rid ∧ p.status = .REFUNDED ∧ p.transaction_type = .REFUND))).foldr
    (fun p acc => p.amount + acc) 0

/-- `Rental.refresh_financials` (models.py): recompute `amount_paid` and
`amount_refunded` from the payment ledger and derive the settlement status;
`now` is the wall-clock time used to stamp `settled_at`. -/
def Rental.refresh_financials (r : Rental) (ps : List Payment) (now : ℤ) : Rental :=
  let paid_total := chargeTotalPaid ps r.id
  let refunded_total := refundTotalRefunded ps r.id
  let r' := { r with amount_paid := paid_total, amount_refunded := refunded_total }
  let order_total := r'.calculate_order_total
  if r'.status = .COMPLETED ∧ order_total ≤ paid_total then
    { r' with settlement_status := .SETTLED,
              settled_at := match r'.settled_at with
                | none => some now
                | some t => some t }
  else if paid_total > 0 then
    { r' with settlement_status := .PARTPAID }
  else
    { r' with settlement_status := .UNSETTLED, settled_at := none }

/-- `Rental.outstanding_amount` (models.py). -/
def Rental.outstanding_amount (r : Rental) : ℚ :=
  let remaining := r.calculate_order_total - r.amount_paid
  if remaining > 0 then remaining else 0

/-- `calculate_rental_amount` (views.py): base rent over the inclusive day
span with the 10% VIP discount. -/
def calculate_rental_amount (c : Customer) (v : Vehicle) (start_date end_date : ℤ) : ℚ :=
  let rental_days : ℤ := (end_date - start_date) + 1
  let base_amount := v.daily_rate * (rental_days : ℚ)
  if c.member_level = "VIP" then
    let discount := base_amount * (1 / 10)
    base_amount - discount
  else base_amount

/-- The itemized bill returned by `calculate_rental_cost` (views.py). -/
structure CostDetails where
  base_amount : ℚ
  discount : ℚ
  extra_amount : ℚ
  total_amount : ℚ
  rental_days : ℤ
  extra_days : ℤ
deriving DecidableEq, Repr

/-- `calculate_rental_cost` (views.py): full cost breakdown, including the
overdue surcharge when the actual return date exceeds the booked end date. -/
def calculate_rental_cost (r : Rental) (v : Vehicle) (c : Customer) : CostDetails :=
  let rental_days : ℤ := (r.end_date - r.start_date) + 1
  let base_amount := v.daily_rate * (rental_days : ℚ)
  let discount := if c.member_level = "VIP" then base_amount * (1 / 10) else 0
  let total0 := base_amount - discount
  match r.actual_return_date with
  | some d =>
      if d > r.end_date then
        let extra_days := d - r.end_date
        let extra_amount := v.daily_rate * (extra_days : ℚ)
        { base_amount := base_amount, discount := discount,
          extra_amount := extra_amount, total_amount := total0 + extra_amount,
          rental_days := rental_days, extra_days := extra_days }
      else
        { base_amount := base_amount, discount := discount, extra_amount := 0,
          total_amount := total0, rental_days := rental_days, extra_days := 0 }
  | none =>
      { base_amount := base_amount, discount := discount, extra_amount := 0,
        total_amount := total0, rental_days := rental_days, extra_days := 0 }

/-- `rental_return` (views.py), the POST branch.  Modelled from the spec:
`rentals/forms.py` (`ReturnForm`) is not under `src/`; per §4.3 and §7 the
submitted return date must satisfy the Rental Order invariants or the
operation fails with a `ValidationError`, so validity is decided by
`Rental.cleanError` (embedded from models.py).  On failure the transaction
rolls back: the error carries no updated state.  On success the overdue
surcharge is added, the order is saved as `COMPLETED`, and the vehicle is
set `AVAILABLE`. -/
def rental_return (r : Rental) (v : Vehicle) (today actual : ℤ) :
    Except String (Rental × Vehicle) :=
  let candidate := { r with actual_return_date := some actual }
  match candidate.cleanError today with
  | some e => .error e
  | none =>
      let r1 :=
        if actual > r.end_date then
          let extra_days := actual - r.end_date
          let extra_cost := v.daily_rate * (extra_days : ℚ)
          { candidate with total_amount := candidate.total_amount + extra_cost }
        else candidate
      let r2 := ({ r1 with status := .COMPLETED }).saveDefaults v.daily_rate
      (.ok (r2, { v with status := .AVAILABLE }))

/-- `rental_status_update` (views.py), the POST branch.  Modelled from the
spec: `RentalStatusForm` is not under `src/`; it is built with
`instance=rental`, so as a `ModelForm` its `is_valid()` call has already
written the submitted status onto the instance before the view reads
`old_status = rental.status` (views.py:230-233).  `old_status` therefore
equals the new status, which makes the `PENDING → ONGOING` and
`→ COMPLETED` vehicle branches unreachable; only the cancellation branch
can touch the vehicle.  The branch structure below mirrors the view
verbatim. -/
def rental_status_update (r : Rental) (v : Vehicle) (newStatus : RentalStatus) :
    Rental × Vehicle :=
  let rPost := { r with status := newStatus }
  let old_status := rPost.status
  let r1 := rPost.saveDefaults v.daily_rate
  if old_status = .PENDING ∧ r1.status = .ONGOING then
    (r1, { v with status := .RENTED })
  else if (old_status = .PENDING ∨ old_status = .ONGOING) ∧ r1.status = .COMPLETED then
    (r1, { v with status := .AVAILABLE })
  else if r1.status = .CANCELLED then
    (r1, if v.status = .RENTED then { v with status := .AVAILABLE } else v)
  else (r1, v)

/-- `rental_cancel` (views.py), the POST branch.  Modelled from the spec:
`CancelForm` is not under `src/`; per §4.3 it requires a non-empty
cancellation reason.  The view itself sets the status to `CANCELLED`
unconditionally, appends the reason to the notes, and releases the vehicle
only when it was `RENTED`. -/
def rental_cancel (r : Rental) (v : Vehicle) (reason : String) :
    Except String (Rental × Vehicle) :=
  if reason = "" then .error ("cancellation reason required")
  else
    let r1 := ({ r with status := .CANCELLED,
                        notes := (r.notes ++ "\n取消原因：" ++ reason).trim }).saveDefaults
                v.daily_rate
    (.ok (r1, if v.status = .RENTED then { v with status := .AVAILABLE } else v))

/-- First `CHARGE` payment of a rental ordered by `created_at`
(`rental.payments.filter(transaction_type='CHARGE').order_by('created_at').first()`
in `_settle_completed_rental`); ties keep the earlier row. -/
def firstChargePayment (ps : List Payment) (rid : Nat) : Option Payment :=
  (ps.filter (fun p => decide (p.rentalId = rid ∧ p.transaction_type = .CHARGE))).foldl
    (fun best p =>
      match best with
      | none => some p
      | some b => if p.created_at < b.created_at then some p else some b)
    none

/-- The account a deposit refund is attributed to: the user of the first
charge payment of the order, falling back to the customer's linked account. -/
def refundAttribution (ps : List Payment) (rid : Nat) (c : Customer) : Option Nat :=
  match firstChargePayment ps rid with
  | some p =>
      match p.user with
      | some u => some u
      | none => c.user
  | none => c.user

/-- The transaction reference generated for an automatic deposit refund
(`transaction_id=f'REF\x7bint(timezone.now().timestamp())\x7d'`): the prefix
`REF` followed by the creation time in whole epoch seconds. -/
def refundTransactionRef (now : ℤ) : String :=
  "REF" ++ toString now

/-- The refund record built by `Payment.objects.create` in
`_settle_completed_rental`, for attribution account `u` and refundable
amount `deposit - refunded`. -/
def autoRefundRecord (r : Rental) (ps : List Payment) (u : Nat) (now : ℤ) : Payment :=
  { rentalId := r.id
    user := some u
    amount := r.deposit - refundTotalRefunded ps r.id
    payment_method := "BANK"
    transaction_type := .REFUND
    status := .REFUNDED
    created_at := now
    paid_at := some now
    transaction_id := refundTransactionRef now }

/-- Result of `Command._settle_completed_rental` on one completed order. -/
structure SettleResult where
  rental : Rental
  payments : List Payment
  createdRefund : Option Payment
  needsManualRefund : Bool
deriving DecidableEq, Repr

/-- `Command._settle_completed_rental` (update_expired_rentals.py): compute
the paid charges and refunded refunds of the order, create at most one
automatic deposit-refund record when the deposit is covered, and finish with
`refresh_financials`.  When no account can be attributed the refund is
skipped and the order is reported for manual follow-up. -/
def settle_completed_rental (r : Rental) (c : Customer) (ps : List Payment) (now : ℤ) :
    SettleResult :=
  let deposit_amount := r.deposit
  let charges := chargeTotalPaid ps r.id
  let refunded := refundTotalRefunded ps r.id
  let refundable := deposit_amount - refunded
  if deposit_amount > 0 ∧ refundable > 0 ∧ charges ≥ deposit_amount then
    let refund_user := refundAttribution ps r.id c
    match refund_user with
    | some u =>
        let refund : Payment :=
          { rentalId := r.id, user := some u, amount := refundable,
            payment_method := "BANK", transaction_type := .REFUND,
            status := .REFUNDED, created_at := now, paid_at := some now,
            transaction_id := refundTransactionRef now }
        let ps' := ps ++ [refund]
        { rental := r.refresh_financials ps' now, payments := ps',
          createdRefund := some refund, needsManualRefund := false }
    | none =>
        { rental := r.refresh_financials ps now, payments := ps,
          createdRefund := none, needsManualRefund := true }
  else
    { rental := r.refresh_financials ps now, payments := ps,
      createdRefund := none, needsManualRefund := false }

/-- The persistent state the sweeper operates on: the rental, vehicle and
payment tables.  Rows are keyed by their primary keys. -/
structure DB where
  rentals : List Rental
  vehicles : List Vehicle
  payments : List Payment
deriving DecidableEq, Repr

/-- Look a vehicle up by primary key. -/
def getVehicle (vs : List Vehicle) (vid : Nat) : Option Vehicle :=
  vs.find? (fun v => decide (v.id = vid))

/-- Daily rate of a vehicle row (rows exist for every foreign key in the
database; a missing row contributes a zero rate). -/
def rateOf (vs : List Vehicle) (vid : Nat) : ℚ :=
  ((getVehicle vs vid).map Vehicle.daily_rate).getD 0

/-- Write a vehicle's status back to the vehicle table. -/
def setVehicleStatus (vs : List Vehicle) (vid : Nat) (st : VehicleStatus) : List Vehicle :=
  vs.map (fun v => if v.id = vid then { v with status := st } else v)

/-- Look a customer up by primary key (rows exist for every foreign key;
a missing row behaves as a plain customer with no linked account). -/
def customerOf (cs : List Customer) (cid : Nat) : Customer :=
  (cs.find? (fun c => decide (c.id = cid))).getD
    { id := cid, member_level := "NORMAL", user := none }

/-- The phase-1 queryset filter: `status='PENDING', start_date__lte=today`. -/
def pendingFilter (today : ℤ) (r : Rental) : Bool :=
  decide (r.status = .PENDING ∧ r.start_date ≤ today)

/-- The phase-2 queryset filter: `status='ONGOING', end_date__lt=today`. -/
def expiredFilter (today : ℤ) (r : Rental) : Bool :=
  decide (r.status = .ONGOING ∧ r.end_date < today)

/-- The per-row update of phase 1 (`_activate_pending_rentals` loop body):
a pending order whose start date has been reached is saved as `ONGOING`. -/
def activateFn (db : DB) (today : ℤ) (r : Rental) : Rental :=
  if pendingFilter today r then
    ({ r with status := .ONGOING }).saveDefaults (rateOf db.vehicles r.vehicleId)
  else r

/-- One iteration of phase 1's vehicle update: the vehicle row read with
the order (the snapshot `db.vehicles`, as `select_related` joins at query
time) flips to `RENTED` when it showed `AVAILABLE`, counting the flip. -/
def activateVehicleStep (db : DB) (acc : List Vehicle × Nat) (r : Rental) :
    List Vehicle × Nat :=
  match getVehicle db.vehicles r.vehicleId with
  | some v =>
      if v.status = .AVAILABLE then
        (setVehicleStatus acc.1 r.vehicleId .RENTED, acc.2 + 1)
      else acc
  | none => acc

/-- `Command._activate_pending_rentals` (update_expired_rentals.py): save
every matching order as `ONGOING`; for each, flip its vehicle to `RENTED`
when the row snapshot read with the order showed it `AVAILABLE`, counting
each flip.  Returns the updated tables and the two phase counts. -/
def activatePhase (db : DB) (today : ℤ) : DB × Nat × Nat :=
  let targets := db.rentals.filter (pendingFilter today)
  let rentals' := db.rentals.map (activateFn db today)
  let vres := targets.foldl (activateVehicleStep db) (db.vehicles, 0)
  ({ db with rentals := rentals', vehicles := vres.1 }, targets.length, vres.2)

/-- The per-row completion of phase 2 (`_complete_expired_rentals` loop
body): save the order as `COMPLETED`, defaulting the actual return date to
the end date, then run `_settle_completed_rental` on it.  The settlement of
one order reads and appends only payments of that order, so its result does
not depend on refunds created for other orders earlier in the same phase. -/
def completeFn (db : DB) (cs : List Customer) (_today now : ℤ) (r : Rental) : SettleResult :=
  let r1 := { r with status := .COMPLETED,
                     actual_return_date := match r.actual_return_date with
                       | none => some r.end_date
                       | some d => some d }
  let r2 := r1.saveDefaults (rateOf db.vehicles r.vehicleId)
  settle_completed_rental r2 (customerOf cs r.customerId) db.payments now

/-- The per-row rental update of phase 2: orders matching the expired filter
are completed and settled, all others are untouched. -/
def completeRentalFn (db : DB) (cs : List Customer) (today now : ℤ) (r : Rental) : Rental :=
  if expiredFilter today r then (completeFn db cs today now r).rental else r

/-- One iteration of the vehicle-release loop at the end of
`_complete_expired_rentals`: re-count the `ONGOING` orders of the vehicle in
the current rental table; when none remain and the vehicle is `RENTED`, set
it `AVAILABLE` and count the release. -/
def releaseStep (rs : List Rental) (acc : List Vehicle × Nat) (vid : Nat) :
    List Vehicle × Nat :=
  let ongoing :=
    (rs.filter (fun r => decide (r.vehicleId = vid ∧ r.status = .ONGOING))).length
  if ongoing = 0 then
    match getVehicle acc.1 vid with
    | some v =>
        if v.status = .RENTED then
          (setVehicleStatus acc.1 vid .AVAILABLE, acc.2 + 1)
        else acc
    | none => acc
  else acc

/-- The vehicle-release loop at the end of `_complete_expired_rentals`. -/
def releaseVehicles (rs : List Rental) (vs0 : List Vehicle) (vids : List Nat) :
    List Vehicle × Nat :=
  vids.foldl (releaseStep rs) (vs0, 0)

/-- `Command._complete_expired_rentals` (update_expired_rentals.py): complete
and settle every expired `ONGOING` order, collect the set of affected vehicle
ids, then release the vehicles that no longer have `ONGOING` orders.
Returns the updated tables, the completed-order count and the released
count. -/
def completePhase (db : DB) (cs : List Customer) (today now : ℤ) : DB × Nat × Nat :=
  let targets := db.rentals.filter (expiredFilter today)
  let rentals' := db.rentals.map (completeRentalFn db cs today now)
  let newRefunds := targets.filterMap (fun r => (completeFn db cs today now r).createdRefund)
  let payments' := db.payments ++ newRefunds
  let vehicleIds := (targets.map (fun r => r.vehicleId)).dedup
  let vres := releaseVehicles rentals' db.vehicles vehicleIds
  ({ rentals := rentals', vehicles := vres.1, payments := payments' },
   targets.length, vres.2)

/-- The execution summary printed by `Command.handle`. -/
structure SweepSummary where
  activated_rentals : Nat
  activated_vehicles : Nat
  completed_rentals : Nat
  released_vehicles : Nat
deriving DecidableEq, Repr

/-- `Command.handle` (update_expired_rentals.py): run the activation phase,
then the completion phase, and report the four counts. -/
def sweep (db : DB) (cs : List Customer) (today now : ℤ) : DB × SweepSummary :=
  let a := activatePhase db today
  let b := completePhase a.1 cs today now
  (b.1,
   { activated_rentals := a.2.1, activated_vehicles := a.2.2,
     completed_rentals := b.2.1, released_vehicles := b.2.2 })

/-! Concrete records used to evaluate the operations on specific inputs. -/

/-- A vehicle at ¥200 per day, currently rented. -/
def sampleVehicle : Vehicle :=
  { id := 1, daily_rate := 200, status := .RENTED }

/-- An ongoing order on `sampleVehicle`: 2024 day numbers 5–12, base total
¥500, deposit ¥100, nothing paid yet. -/
def sampleRental : Rental :=
  { id := 1, customerId := 1, vehicleId := 1,
    start_date := 5, end_date := 12, actual_return_date := none,
    total_amount := 500, deposit := 100,
    pickup_location := "门店", return_location := none,
    is_cross_location_return := false, cross_location_fee := 0,
    status := .ONGOING, notes := "",
    settlement_status := .UNSETTLED, settled_at := none,
    amount_paid := 0, amount_refunded := 0 }

/-- A customer with a linked account. -/
def sampleCustomer : Customer :=
  { id := 1, member_level := "NORMAL", user := some 9 }

/-- A paid charge of ¥600 against `sampleRental`, made from account 7. -/
def sampleCharge : Payment :=
  { rentalId := 1, user := some 7, amount := 600, payment_method := "BANK",
    transaction_type := .CHARGE, status := .PAID, created_at := 1,
    paid_at := some 1, transaction_id := "TX1" }

/-- A second ongoing order on the same vehicle as `sampleRental`. -/
def sampleRentalB : Rental :=
  { sampleRental with id := 2 }

/-- A completed order (terminal state). -/
def sampleCompleted : Rental :=
  { sampleRental with status := .COMPLETED }

/-- A paid charge of ¥600 against `sampleRentalB`, made from account 8. -/
def sampleChargeB : Payment :=
  { sampleCharge with rentalId := 2, user := some 8, transaction_id := "TX2" }

/-- A completed order settled at time 42 whose base total was later raised to
¥700, so the ¥600 of paid charges no longer cover the ¥800 order total. -/
def samplePartialRental : Rental :=
  { sampleCompleted with settled_at := some 42, total_amount := 700 }

/-- The spec's worked example: booked end date day 10 (2024-01-10), actual
return day 12 (2024-01-12), on the ¥200-per-day `sampleVehicle`. -/
def sampleOverdue : Rental :=
  { sampleRental with end_date := 10, actual_return_date := some 12 }

/-- The order produced by manually returning `sampleRental` on day 10. -/
def sampleReturned : Rental :=
  ({ sampleRental with actual_return_date := some 10,
                       status := .COMPLETED } : Rental).saveDefaults
    sampleVehicle.daily_rate

/-- A long-running third order on the same vehicle, ending on day 25. -/
def sampleRentalLong : Rental :=
  { sampleRental with id := 3, end_date := 25 }

/-- A database with an expired order and a still-running order sharing one
vehicle. -/
def sampleDB : DB :=
  { rentals := [sampleRental, sampleRentalLong]
    vehicles := [sampleVehicle]
    payments := [] }

/-- The order produced by cancelling `sampleCompleted` with reason 需求变更. -/
def sampleCancelled : Rental :=
  ({ sampleCompleted with status := .CANCELLED,
                          notes := (sampleCompleted.notes ++ "\n取消原因：" ++
                            "需求变更").trim } : Rental).saveDefaults
    sampleVehicle.daily_rate

/-- The per-rental effect of one whole sweep run: activation followed by
completion, with the completion phase reading the tables left by the
activation phase. -/
def sweepStep (db : DB) (cs : List Customer) (today now : ℤ) (r : Rental) : Rental :=
  completeRentalFn (activatePhase db today).1 cs today now (activateFn db today r)

/-! Helper lemmas: which fields each operation preserves. -/

@[simp]
theorem Rental.saveDefaults_status (r : Rental) (rate : ℚ) :
    (r.saveDefaults rate).status = r.status := by
  simp only [Rental.saveDefaults, apply_ite Rental.status, ite_self]

@[simp]
theorem Rental.saveDefaults_id (r : Rental) (rate : ℚ) :
    (r.saveDefaults rate).id = r.id := by
  simp only [Rental.saveDefaults, apply_ite Rental.id, ite_self]

@[simp]
theorem Rental.saveDefaults_start_date (r : Rental) (rate : ℚ) :
    (r.saveDefaults rate).start_date = r.start_date := by
  simp only [Rental.saveDefaults, apply_ite Rental.start_date, ite_self]

@[simp]
theorem Rental.saveDefaults_end_date (r : Rental) (rate : ℚ) :
    (r.saveDefaults rate).end_date = r.end_date := by
  simp only [Rental.saveDefaults, apply_ite Rental.end_date, ite_self]

@[simp]
theorem Rental.saveDefaults_actual_return_date (r : Rental) (rate : ℚ) :
    (r.saveDefaults rate).actual_return_date = r.actual_return_date := by
  simp only [Rental.saveDefaults, apply_ite Rental.actual_return_date, ite_self]

@[simp]
theorem Rental.saveDefaults_settlement_status (r : Rental) (rate : ℚ) :
    (r.saveDefaults rate).settlement_status = r.settlement_status := by
  simp only [Rental.saveDefaults, apply_ite Rental.settlement_status, ite_self]

@[simp]
theorem Rental.saveDefaults_settled_at (r : Rental) (rate : ℚ) :
    (r.saveDefaults rate).settled_at = r.settled_at := by
  simp only [Rental.saveDefaults, apply_ite Rental.settled_at, ite_self]

@[simp]
theorem Rental.saveDefaults_amount_paid (r : Rental) (rate : ℚ) :
    (r.saveDefaults rate).amount_paid = r.amount_paid := by
  simp only [Rental.saveDefaults, apply_ite Rental.amount_paid, ite_self]

@[simp]
theorem Rental.saveDefaults_amount_refunded (r : Rental) (rate : ℚ) :
    (r.saveDefaults rate).amount_refunded = r.amount_refunded := by
  simp only [Rental.saveDefaults, apply_ite Rental.amount_refunded, ite_self]

@[simp]
theorem Rental.saveDefaults_customerId (r : Rental) (rate : ℚ) :
    (r.saveDefaults rate).customerId = r.customerId := by
  simp only [Rental.saveDefaults, apply_ite Rental.customerId, ite_self]

@[simp]
theorem Rental.saveDefaults_vehicleId (r : Rental) (rate : ℚ) :
    (r.saveDefaults rate).vehicleId = r.vehicleId := by
  simp only [Rental.saveDefaults, apply_ite Rental.vehicleId, ite_self]

@[simp]
theorem Rental.refresh_status (r : Rental) (ps : List Payment) (now : ℤ) :
    (r.refresh_financials ps now).status = r.status := by
  simp only [Rental.refresh_financials, apply_ite Rental.status, ite_self]

@[simp]
theorem Rental.refresh_id (r : Rental) (ps : List Payment) (now : ℤ) :
    (r.refresh_financials ps now).id = r.id := by
  simp only [Rental.refresh_financials, apply_ite Rental.id, ite_self]

@[simp]
theorem Rental.refresh_start_date (r : Rental) (ps : List Payment) (now : ℤ) :
    (r.refresh_financials ps now).start_date = r.start_date := by
  simp only [Rental.refresh_financials, apply_ite Rental.start_date, ite_self]

@[simp]
theorem Rental.refresh_end_date (r : Rental) (ps : List Payment) (now : ℤ) :
    (r.refresh_financials ps now).end_date = r.end_date := by
  simp only [Rental.refresh_financials, apply_ite Rental.end_date, ite_self]

@[simp]
theorem Rental.refresh_actual_return_date (r : Rental) (ps : List Payment) (now : ℤ) :
    (r.refresh_financials ps now).actual_return_date = r.actual_return_date := by
  simp only [Rental.refresh_financials, apply_ite Rental.actual_return_date, ite_self]

@[simp]
theorem Rental.refresh_total_amount (r : Rental) (ps : List Payment) (now : ℤ) :
    (r.refresh_financials ps now).total_amount = r.total_amount := by
  simp only [Rental.refresh_financials, apply_ite Rental.total_amount, ite_self]

@[simp]
theorem Rental.refresh_deposit (r : Rental) (ps : List Payment) (now : ℤ) :
    (r.refresh_financials ps now).deposit = r.deposit := by
  simp only [Rental.refresh_financials, apply_ite Rental.deposit, ite_self]

@[simp]
theorem Rental.refresh_is_cross (r : Rental) (ps : List Payment) (now : ℤ) :
    (r.refresh_financials ps now).is_cross_location_return = r.is_cross_location_return := by
  simp only [Rental.refresh_financials, apply_ite Rental.is_cross_location_return, ite_self]

@[simp]
theorem Rental.refresh_cross_fee (r : Rental) (ps : List Payment) (now : ℤ) :
    (r.refresh_financials ps now).cross_location_fee = r.cross_location_fee := by
  simp only [Rental.refresh_financials, apply_ite Rental.cross_location_fee, ite_self]

@[simp]
theorem Rental.refresh_amount_paid (r : Rental) (ps : List Payment) (now : ℤ) :
    (r.refresh_financials ps now).amount_paid = chargeTotalPaid ps r.id := by
  simp only [Rental.refresh_financials, apply_ite Rental.amount_paid, ite_self]

@[simp]
theorem Rental.refresh_amount_refunded (r : Rental) (ps : List Payment) (now : ℤ) :
    (r.refresh_financials ps now).amount_refunded = refundTotalRefunded ps r.id := by
  simp only [Rental.refresh_financials, apply_ite Rental.amount_refunded, ite_self]

@[simp]
theorem Rental.refresh_order_total (r : Rental) (ps : List Payment) (now : ℤ) :
    (r.refresh_financials ps now).calculate_order_total = r.calculate_order_total := by
  simp only [Rental.calculate_order_total, Rental.refresh_total_amount,
    Rental.refresh_deposit, Rental.refresh_is_cross, Rental.refresh_cross_fee]

@[simp]
theorem Rental.refresh_pickup_location (r : Rental) (ps : List Payment) (now : ℤ) :
    (r.refresh_financials ps now).pickup_location = r.pickup_location := by
  simp only [Rental.refresh_financials, apply_ite Rental.pickup_location, ite_self]

@[simp]
theorem Rental.refresh_return_location (r : Rental) (ps : List Payment) (now : ℤ) :
    (r.refresh_financials ps now).return_location = r.return_location := by
  simp only [Rental.refresh_financials, apply_ite Rental.return_location, ite_self]

@[simp]
theorem Rental.refresh_notes (r : Rental) (ps : List Payment) (now : ℤ) :
    (r.refresh_financials ps now).notes = r.notes := by
  simp only [Rental.refresh_financials, apply_ite Rental.notes, ite_self]

@[simp]
theorem Rental.refresh_customerId (r : Rental) (ps : List Payment) (now : ℤ) :
    (r.refresh_financials ps now).customerId = r.customerId := by
  simp only [Rental.refresh_financials, apply_ite Rental.customerId, ite_self]

@[simp]
theorem Rental.refresh_vehicleId (r : Rental) (ps : List Payment) (now : ℤ) :
    (r.refresh_financials ps now).vehicleId = r.vehicleId := by
  simp only [Rental.refresh_financials, apply_ite Rental.vehicleId, ite_self]

/-- The settlement status written by `refresh_financials`, by branch. -/
theorem Rental.refresh_settlement_status (r : Rental) (ps : List Payment) (now : ℤ) :
    (r.refresh_financials ps now).settlement_status =
      if r.status = .COMPLETED ∧ r.calculate_order_total ≤ chargeTotalPaid ps r.id then
        .SETTLED
      else if chargeTotalPaid ps r.id > 0 then .PARTPAID
      else .UNSETTLED := by
  simp only [Rental.refresh_financials, Rental.calculate_order_total,
    apply_ite Rental.settlement_status]

/-- The `settled_at` timestamp written by `refresh_financials`, by branch. -/
theorem Rental.refresh_settled_at (r : Rental) (ps : List Payment) (now : ℤ) :
    (r.refresh_financials ps now).settled_at =
      if r.status = .COMPLETED ∧ r.calculate_order_total ≤ chargeTotalPaid ps r.id then
        some (r.settled_at.getD now)
      else if chargeTotalPaid ps r.id > 0 then r.settled_at
      else none := by
  simp only [Rental.refresh_financials, apply_ite Rental.settled_at]
  cases r.settled_at <;> rfl

/-- Two rentals are equal when all their fields are. -/
theorem Rental.eq_of_fields {a b : Rental}
    (h1 : a.id = b.id) (h2 : a.customerId = b.customerId)
    (h3 : a.vehicleId = b.vehicleId) (h4 : a.start_date = b.start_date)
    (h5 : a.end_date = b.end_date) (h6 : a.actual_return_date = b.actual_return_date)
    (h7 : a.total_amount = b.total_amount) (h8 : a.deposit = b.deposit)
    (h9 : a.pickup_location = b.pickup_location)
    (h10 : a.return_location = b.return_location)
    (h11 : a.is_cross_location_return = b.is_cross_location_return)
    (h12 : a.cross_location_fee = b.cross_location_fee) (h13 : a.status = b.status)
    (h14 : a.notes = b.notes) (h15 : a.settlement_status = b.settlement_status)
    (h16 : a.settled_at = b.settled_at) (h17 : a.amount_paid = b.amount_paid)
    (h18 : a.amount_refunded = b.amount_refunded) : a = b := by
  cases a; cases b; simp_all

/-- `refresh_financials` is idempotent: refreshing an already refreshed
order (same ledger) changes nothing, whatever the two wall-clock times. -/
theorem Rental.refresh_idem (r : Rental) (ps : List Payment) (now snd : ℤ) :
    (r.refresh_financials ps now).refresh_financials ps snd =
      r.refresh_financials ps now := by
  apply Rental.eq_of_fields
  all_goals simp [Rental.refresh_settlement_status, Rental.refresh_settled_at]
  all_goals split_ifs <;> simp_all

/-! Claim theorems. -/

/-- C4: the settlement refresh sets `settlement_status = SETTLED` exactly when
the lifecycle status is `COMPLETED` and the order total is at most the paid
charges; it stamps `settled_at` with the current time only when it is not
already set; and once a completed, fully paid order has been refreshed,
repeating the refresh changes nothing, so `settled_at` is set exactly once. -/
theorem C4_settled_exactly_on_completion (r : Rental) (ps : List Payment) (now snd : ℤ) :
    ((r.refresh_financials ps now).settlement_status = .SETTLED ↔
       (r.status = .COMPLETED ∧ r.calculate_order_total ≤ chargeTotalPaid ps r.id))
  ∧ (r.status = .COMPLETED → r.calculate_order_total ≤ chargeTotalPaid ps r.id →
      ((r.settled_at = none → (r.refresh_financials ps now).settled_at = some now)
     ∧ (∀ t : ℤ, r.settled_at = some t → (r.refresh_financials ps now).settled_at = some t)
     ∧ (r.refresh_financials ps now).refresh_financials ps snd =
         r.refresh_financials ps now)) := by
  refine ⟨?_, fun hc hp => ⟨?_, ?_, Rental.refresh_idem r ps now snd⟩⟩
  · rw [Rental.refresh_settlement_status]
    split_ifs with h h2 <;> simp [h]
  · intro hn
    rw [Rental.refresh_settled_at, if_pos ⟨hc, hp⟩, hn]
    rfl
  · intro t ht
    rw [Rental.refresh_settled_at, if_pos ⟨hc, hp⟩, ht]
    rfl

/-- Witness for C4 on a concrete completed, fully paid order. -/
theorem C4_settled_exactly_on_completion_witness :
    (sampleCompleted.refresh_financials [sampleCharge] 50).settlement_status = .SETTLED
  ∧ (sampleCompleted.refresh_financials [sampleCharge] 50).settled_at = some 50
  ∧ (sampleCompleted.refresh_financials [sampleCharge] 50).refresh_financials [sampleCharge] 60
      = sampleCompleted.refresh_financials [sampleCharge] 50 := by
  have h := C4_settled_exactly_on_completion sampleCompleted [sampleCharge] 50 60
  have hc : sampleCompleted.status = .COMPLETED := by decide
  have hp : sampleCompleted.calculate_order_total ≤
      chargeTotalPaid [sampleCharge] sampleCompleted.id := by
    norm_num [Rental.calculate_order_total, chargeTotalPaid, sampleCompleted,
      sampleRental, sampleCharge]
  exact ⟨h.1.mpr ⟨hc, hp⟩, (h.2 hc hp).1 (by decide), (h.2 hc hp).2.2⟩

/-- C10: when the refresh classifies an order as partially settled it leaves
`settled_at` untouched (so a once-settled order that becomes partial keeps
its old timestamp), and `settled_at` is cleared only by the unsettled
branch. -/
theorem C10_partial_keeps_settled_at (r : Rental) (ps : List Payment) (now : ℤ) :
    (chargeTotalPaid ps r.id > 0 →
       ¬(r.status = .COMPLETED ∧ r.calculate_order_total ≤ chargeTotalPaid ps r.id) →
       (r.refresh_financials ps now).settlement_status = .PARTPAID
       ∧ (r.refresh_financials ps now).settled_at = r.settled_at)
  ∧ ((r.refresh_financials ps now).settled_at = none → r.settled_at ≠ none →
       (r.refresh_financials ps now).settlement_status = .UNSETTLED) := by
  constructor
  · intro hp hn
    rw [Rental.refresh_settlement_status, Rental.refresh_settled_at,
      if_neg hn, if_neg hn, if_pos hp, if_pos hp]
    exact ⟨rfl, rfl⟩
  · intro hnone hsome
    rw [Rental.refresh_settled_at] at hnone
    rw [Rental.refresh_settlement_status]
    split_ifs at hnone ⊢ with h1 h2
    · exact absurd hnone hsome
    · rfl

/-- Witness for C10: a once-settled order whose ledger no longer covers the
total becomes partial and keeps its old `settled_at` timestamp. -/
theorem C10_partial_keeps_settled_at_witness :
    (samplePartialRental.refresh_financials [sampleCharge] 50).settlement_status = .PARTPAID
  ∧ (samplePartialRental.refresh_financials [sampleCharge] 50).settled_at = some 42 := by
  have h := (C10_partial_keeps_settled_at samplePartialRental [sampleCharge] 50).1
    (by norm_num [chargeTotalPaid, samplePartialRental, sampleCompleted, sampleRental,
      sampleCharge])
    (by norm_num [Rental.calculate_order_total, chargeTotalPaid, samplePartialRental,
      sampleCompleted, sampleRental, sampleCharge])
  exact ⟨h.1, h.2⟩

/-- A full save leaves a non-zero base total unchanged. -/
theorem Rental.saveDefaults_total_of_ne (r : Rental) (rate : ℚ)
    (h : r.total_amount ≠ 0) :
    (r.saveDefaults rate).total_amount = r.total_amount := by
  simp only [Rental.saveDefaults, if_neg h, apply_ite Rental.total_amount, ite_self]

/-- C9: the overdue surcharge is zero when the actual return date does not
exceed the booked end date, and exactly the daily rate times the number of
late days otherwise (exact fixed-point arithmetic); on a manual return the
surcharge is added to `total_amount` before the order is marked
`COMPLETED`. -/
theorem C9_overdue_surcharge (r : Rental) (v : Vehicle) (c : Customer) (d today : ℤ)
    (hd : r.actual_return_date = some d) (htot : 0 < r.total_amount)
    (hrate : 0 ≤ v.daily_rate) :
    (d ≤ r.end_date → (calculate_rental_cost r v c).extra_amount = 0)
  ∧ (r.end_date < d →
      (calculate_rental_cost r v c).extra_amount = v.daily_rate * ((d - r.end_date : ℤ) : ℚ))
  ∧ (∀ out : Rental × Vehicle, rental_return r v today d = .ok out →
      out.1.status = .COMPLETED ∧
      out.1.total_amount = r.total_amount +
        (if r.end_date < d then v.daily_rate * ((d - r.end_date : ℤ) : ℚ) else 0)) := by
  refine ⟨?_, ?_, ?_⟩
  · intro h
    simp only [calculate_rental_cost, hd]
    rw [if_neg (not_lt.mpr h)]
  · intro h
    simp only [calculate_rental_cost, hd]
    rw [if_pos h]
  · intro out hout
    simp only [rental_return] at hout
    split at hout
    · exact Except.noConfusion hout
    · simp only [Except.ok.injEq] at hout
      subst hout
      by_cases hcond : r.end_date < d
      · have hnn : 0 ≤ v.daily_rate * ((d - r.end_date : ℤ) : ℚ) :=
          mul_nonneg hrate (by exact_mod_cast sub_nonneg.mpr hcond.le)
        have hne : r.total_amount + v.daily_rate * ((d - r.end_date : ℤ) : ℚ) ≠ 0 :=
          ne_of_gt (add_pos_of_pos_of_nonneg htot hnn)
        rw [if_pos hcond]
        constructor
        · simp
        · rw [if_pos hcond]
          simpa using Rental.saveDefaults_total_of_ne _ v.daily_rate (by simpa using hne)
      · rw [if_neg hcond]
        constructor
        · simp
        · rw [if_neg hcond, add_zero]
          simpa using Rental.saveDefaults_total_of_ne _ v.daily_rate
            (by simpa using ne_of_gt htot)

/-- Witness for C9: the worked example — ¥200 per day, end date day 10,
actual return day 12 — yields an overdue surcharge of exactly ¥400. -/
theorem C9_overdue_surcharge_witness :
    (calculate_rental_cost sampleOverdue sampleVehicle sampleCustomer).extra_amount = 400 := by
  have h := (C9_overdue_surcharge sampleOverdue sampleVehicle sampleCustomer 12 20
    (by decide) (by norm_num [sampleOverdue, sampleRental])
    (by norm_num [sampleVehicle])).2.1 (by decide)
  rw [h]
  norm_num [sampleVehicle, sampleOverdue, sampleRental]

/-- C8: a manual return whose actual return date violates the order
invariants — earlier than the start date or later than today — fails with a
`ValidationError` and produces no updated state. -/
theorem C8_return_validation (r : Rental) (v : Vehicle) (today d : ℤ)
    (hbad : d < r.start_date ∨ today < d) :
    (∃ e, rental_return r v today d = .error e)
  ∧ (rental_return r v today d).toOption = none := by
  have h : ∃ e, ({ r with actual_return_date := some d } : Rental).cleanError today = some e := by
    simp only [Rental.cleanError]
    split_ifs with h1 h2 h3
    · exact ⟨_, rfl⟩
    · exact ⟨_, rfl⟩
    · exact ⟨_, rfl⟩
    · rcases hbad with hb | hb
      · exact absurd hb h2
      · exact absurd hb h3
  obtain ⟨e, he⟩ := h
  refine ⟨⟨e, ?_⟩, ?_⟩
  · simp only [rental_return, he]
  · simp only [rental_return, he, Except.toOption]

/-- Witness for C8: returning on day 2, before the rental even started,
is rejected. -/
theorem C8_return_validation_witness :
    (rental_return sampleRental sampleVehicle 20 2).toOption = none :=
  (C8_return_validation sampleRental sampleVehicle 20 2 (Or.inl (by decide))).2

/-- When the auto-refund guard fails, the settlement only refreshes the
financial fields. -/
theorem settle_eq_of_guard_false (r : Rental) (c : Customer) (ps : List Payment)
    (now : ℤ)
    (hc : ¬(r.deposit > 0 ∧ r.deposit - refundTotalRefunded ps r.id > 0
             ∧ chargeTotalPaid ps r.id ≥ r.deposit)) :
    settle_completed_rental r c ps now =
      { rental := r.refresh_financials ps now, payments := ps,
        createdRefund := none, needsManualRefund := false } := by
  simp only [settle_completed_rental, if_neg hc]

/-- When the auto-refund guard holds but no account can be attributed, the
settlement skips the refund and flags the order. -/
theorem settle_eq_of_no_account (r : Rental) (c : Customer) (ps : List Payment)
    (now : ℤ)
    (hc : r.deposit > 0 ∧ r.deposit - refundTotalRefunded ps r.id > 0
           ∧ chargeTotalPaid ps r.id ≥ r.deposit)
    (hattr : refundAttribution ps r.id c = none) :
    settle_completed_rental r c ps now =
      { rental := r.refresh_financials ps now, payments := ps,
        createdRefund := none, needsManualRefund := true } := by
  simp only [settle_completed_rental, if_pos hc, hattr]

/-- When the auto-refund guard holds and an account is attributed, the
settlement creates exactly the refund record `autoRefundRecord`. -/
theorem settle_eq_of_account (r : Rental) (c : Customer) (ps : List Payment)
    (now : ℤ) (u : Nat)
    (hc : r.deposit > 0 ∧ r.deposit - refundTotalRefunded ps r.id > 0
           ∧ chargeTotalPaid ps r.id ≥ r.deposit)
    (hattr : refundAttribution ps r.id c = some u) :
    settle_completed_rental r c ps now =
      { rental := r.refresh_financials (ps ++ [autoRefundRecord r ps u now]) now
        payments := ps ++ [autoRefundRecord r ps u now]
        createdRefund := some (autoRefundRecord r ps u now)
        needsManualRefund := false } := by
  simp only [settle_completed_rental, if_pos hc, hattr, autoRefundRecord]

/-- C5: one completion event creates at most one new refund record; the
record's amount is exactly the deposit minus the already refunded total, it
is created only when the deposit is positive, not yet refunded, and covered
by the paid charges, and it is attributed to the first charge payment's
account with the customer's linked account as fallback; when no account can
be attributed, no record is created and the order is flagged for manual
follow-up (a warning, not a failure). -/
theorem C5_auto_refund (r : Rental) (c : Customer) (ps : List Payment) (now : ℤ) :
    ((settle_completed_rental r c ps now).createdRefund = none →
       (settle_completed_rental r c ps now).payments = ps)
  ∧ (∀ p : Payment, (settle_completed_rental r c ps now).createdRefund = some p →
       (settle_completed_rental r c ps now).payments = ps ++ [p]
       ∧ p.amount = r.deposit - refundTotalRefunded ps r.id
       ∧ p.transaction_type = .REFUND
       ∧ p.user = refundAttribution ps r.id c
       ∧ (r.deposit > 0 ∧ r.deposit - refundTotalRefunded ps r.id > 0
            ∧ chargeTotalPaid ps r.id ≥ r.deposit))
  ∧ ((r.deposit > 0 ∧ r.deposit - refundTotalRefunded ps r.id > 0
        ∧ chargeTotalPaid ps r.id ≥ r.deposit) →
       refundAttribution ps r.id c = none →
       (settle_completed_rental r c ps now).createdRefund = none
       ∧ (settle_completed_rental r c ps now).payments = ps
       ∧ (settle_completed_rental r c ps now).needsManualRefund = true)
  ∧ ((r.deposit > 0 ∧ r.deposit - refundTotalRefunded ps r.id > 0
        ∧ chargeTotalPaid ps r.id ≥ r.deposit) →
       refundAttribution ps r.id c ≠ none →
       (settle_completed_rental r c ps now).createdRefund ≠ none) := by
  by_cases hc : r.deposit > 0 ∧ r.deposit - refundTotalRefunded ps r.id > 0
      ∧ chargeTotalPaid ps r.id ≥ r.deposit
  · rcases hattr : refundAttribution ps r.id c with _ | u
    · rw [settle_eq_of_no_account r c ps now hc hattr]
      refine ⟨fun _ => rfl, ?_, fun _ _ => ⟨rfl, rfl, rfl⟩, fun _ hne => absurd rfl hne⟩
      intro p hp
      exact Option.noConfusion hp
    · rw [settle_eq_of_account r c ps now u hc hattr]
      refine ⟨?_, ?_, ?_, ?_⟩
      · intro hnone
        exact Option.noConfusion hnone
      · intro p hp
        injection hp with h
        subst h
        exact ⟨rfl, rfl, rfl, rfl, hc⟩
      · intro _ hnone
        exact Option.noConfusion hnone
      · intro _ _ hnone
        exact Option.noConfusion hnone
  · rw [settle_eq_of_guard_false r c ps now hc]
    refine ⟨fun _ => rfl, ?_, fun hcc _ => absurd hcc hc, fun hcc _ => absurd hcc hc⟩
    intro p hp
    exact Option.noConfusion hp

/-- Witness for C5: on a completed order with deposit ¥100, no prior
refunds, and ¥600 of paid charges, the settlement does create a refund. -/
theorem C5_auto_refund_witness :
    (settle_completed_rental sampleRental sampleCustomer [sampleCharge] 99).createdRefund
      ≠ none := by
  refine (C5_auto_refund sampleRental sampleCustomer [sampleCharge] 99).2.2.2
    ⟨?_, ?_, ?_⟩ (by decide)
  · show (0 : ℚ) < 100
    norm_num
  · show (0 : ℚ) < 100 - (0 : ℚ)
    norm_num
  · show (600 : ℚ) + 0 ≥ 100
    norm_num

/-- The auto-refund guard holds for `sampleRental` with ledger `[sampleCharge]`. -/
theorem sampleGuardA :
    sampleRental.deposit > 0
  ∧ sampleRental.deposit - refundTotalRefunded [sampleCharge] sampleRental.id > 0
  ∧ chargeTotalPaid [sampleCharge] sampleRental.id ≥ sampleRental.deposit := by
  refine ⟨?_, ?_, ?_⟩
  · show (100 : ℚ) > 0
    norm_num
  · show (100 : ℚ) - 0 > 0
    norm_num
  · show (600 : ℚ) + 0 ≥ 100
    norm_num

/-- The auto-refund guard holds for `sampleRentalB` with ledger `[sampleChargeB]`. -/
theorem sampleGuardB :
    sampleRentalB.deposit > 0
  ∧ sampleRentalB.deposit - refundTotalRefunded [sampleChargeB] sampleRentalB.id > 0
  ∧ chargeTotalPaid [sampleChargeB] sampleRentalB.id ≥ sampleRentalB.deposit := by
  refine ⟨?_, ?_, ?_⟩
  · show (100 : ℚ) > 0
    norm_num
  · show (100 : ℚ) - 0 > 0
    norm_num
  · show (600 : ℚ) + 0 ≥ 100
    norm_num

/-- The refund for `sampleRental` is attributed to account 7, the payer of
its first charge. -/
theorem sampleAttrA :
    refundAttribution [sampleCharge] sampleRental.id sampleCustomer = some 7 := by
  decide

/-- The refund for `sampleRentalB` is attributed to account 8, the payer of
its first charge. -/
theorem sampleAttrB :
    refundAttribution [sampleChargeB] sampleRentalB.id sampleCustomer = some 8 := by
  decide

/-- Every refund record created by `_settle_completed_rental` carries the
generated reference for the creation second. -/
theorem created_refund_ref (r : Rental) (c : Customer) (ps : List Payment)
    (now : ℤ) (p : Payment)
    (hp : (settle_completed_rental r c ps now).createdRefund = some p) :
    p.transaction_id = refundTransactionRef now := by
  by_cases hc : r.deposit > 0 ∧ r.deposit - refundTotalRefunded ps r.id > 0
      ∧ chargeTotalPaid ps r.id ≥ r.deposit
  · rcases hattr : refundAttribution ps r.id c with _ | u
    · rw [settle_eq_of_no_account r c ps now hc hattr] at hp
      exact Option.noConfusion hp
    · rw [settle_eq_of_account r c ps now u hc hattr] at hp
      injection hp with h
      rw [← h]
      rfl
  · rw [settle_eq_of_guard_false r c ps now hc] at hp
    exact Option.noConfusion hp

/-- C6 counterexample: completing two different orders during the same whole
second creates two distinct refund records that carry the SAME transaction
reference `REF99`, so references of refunds created by the system are not
pairwise distinct. -/
theorem C6_reference_collision :
    (settle_completed_rental sampleRental sampleCustomer [sampleCharge] 99).createdRefund.map
        Payment.transaction_id = some ("REF99")
  ∧ (settle_completed_rental sampleRentalB sampleCustomer [sampleChargeB] 99).createdRefund.map
        Payment.transaction_id = some ("REF99")
  ∧ (settle_completed_rental sampleRental sampleCustomer [sampleCharge] 99).createdRefund.map
        Payment.rentalId ≠
      (settle_completed_rental sampleRentalB sampleCustomer [sampleChargeB] 99).createdRefund.map
        Payment.rentalId := by
  rw [settle_eq_of_account sampleRental sampleCustomer [sampleCharge] 99 7
      sampleGuardA sampleAttrA,
    settle_eq_of_account sampleRentalB sampleCustomer [sampleChargeB] 99 8
      sampleGuardB sampleAttrB]
  refine ⟨?_, ?_, ?_⟩ <;> decide

/-- C6 amended: each refund record's transaction reference is `REF` followed
by the creation time in whole epoch seconds (`refundTransactionRef`), so two
refunds created at the same whole second — possible within one sweep — share
the same reference; distinctness holds only across distinct creation
seconds. -/
theorem C6_amended_reference_formula (r : Rental) (c : Customer) (ps : List Payment)
    (now : ℤ) :
    (∀ p : Payment, (settle_completed_rental r c ps now).createdRefund = some p →
       p.transaction_id = refundTransactionRef now)
  ∧ (∀ (r2 : Rental) (c2 : Customer) (ps2 : List Payment) (p q : Payment),
       (settle_completed_rental r c ps now).createdRefund = some p →
       (settle_completed_rental r2 c2 ps2 now).createdRefund = some q →
       p.transaction_id = q.transaction_id) := by
  refine ⟨fun p hp => created_refund_ref r c ps now p hp, ?_⟩
  intro r2 c2 ps2 p q hp hq
  rw [created_refund_ref r c ps now p hp, created_refund_ref r2 c2 ps2 now q hq]

/-- Witness for C6 amended, on the two concrete same-second completions. -/
theorem C6_amended_reference_formula_witness :
    (autoRefundRecord sampleRental [sampleCharge] 7 99).transaction_id =
      (autoRefundRecord sampleRentalB [sampleChargeB] 8 99).transaction_id := by
  exact (C6_amended_reference_formula sampleRental sampleCustomer [sampleCharge] 99).2
    sampleRentalB sampleCustomer [sampleChargeB] _ _
    (by rw [settle_eq_of_account sampleRental sampleCustomer [sampleCharge] 99 7
        sampleGuardA sampleAttrA])
    (by rw [settle_eq_of_account sampleRentalB sampleCustomer [sampleChargeB] 99 8
        sampleGuardB sampleAttrB])

/-- C1 counterexample: the manual return marks the order `COMPLETED` but
performs no settlement refresh — with ¥600 of paid charges on the ledger the
returned order still shows `amount_paid = 0` and `UNSETTLED`, not the values
derived from its payment records. -/
theorem C1_return_skips_refresh :
    rental_return sampleRental sampleVehicle 20 10 =
      .ok (sampleReturned, { sampleVehicle with status := .AVAILABLE })
  ∧ sampleReturned.status = .COMPLETED
  ∧ sampleReturned.amount_paid = 0
  ∧ sampleReturned.settlement_status = .UNSETTLED
  ∧ chargeTotalPaid [sampleCharge] sampleRental.id = 600
  ∧ (0 : ℚ) ≠ 600 := by
  refine ⟨rfl, ?_, ?_, ?_, ?_, by norm_num⟩
  · simp [sampleReturned]
  · simp [sampleReturned, sampleRental]
  · simp [sampleReturned, sampleRental]
  · show (600 : ℚ) + 0 = 600
    norm_num

/-- C1 amended: the settlement refresh is an atomic part of the completion
only on the sweep's path (`_settle_completed_rental` always ends by deriving
the financial fields from the final ledger), while the manual return and the
explicit status transition leave `amount_paid`, `amount_refunded` and
`settlement_status` exactly as they were — they never invoke the refresh. -/
theorem C1_amended_refresh_only_in_sweep (r : Rental) (c : Customer) (v : Vehicle)
    (ps : List Payment) (now today d : ℤ) (s : RentalStatus) :
    ((settle_completed_rental r c ps now).rental =
       r.refresh_financials (settle_completed_rental r c ps now).payments now)
  ∧ (∀ out : Rental × Vehicle, rental_return r v today d = .ok out →
       out.1.amount_paid = r.amount_paid
       ∧ out.1.amount_refunded = r.amount_refunded
       ∧ out.1.settlement_status = r.settlement_status)
  ∧ ((rental_status_update r v s).1.amount_paid = r.amount_paid
       ∧ (rental_status_update r v s).1.amount_refunded = r.amount_refunded
       ∧ (rental_status_update r v s).1.settlement_status = r.settlement_status) := by
  refine ⟨?_, ?_, ?_⟩
  · by_cases hc : r.deposit > 0 ∧ r.deposit - refundTotalRefunded ps r.id > 0
        ∧ chargeTotalPaid ps r.id ≥ r.deposit
    · rcases hattr : refundAttribution ps r.id c with _ | u
      · rw [settle_eq_of_no_account r c ps now hc hattr]
      · rw [settle_eq_of_account r c ps now u hc hattr]
    · rw [settle_eq_of_guard_false r c ps now hc]
  · intro out hout
    simp only [rental_return] at hout
    split at hout
    · exact Except.noConfusion hout
    · simp only [Except.ok.injEq] at hout
      subst hout
      refine ⟨?_, ?_, ?_⟩ <;>
        simp [apply_ite Rental.amount_paid, apply_ite Rental.amount_refunded,
          apply_ite Rental.settlement_status, ite_self]
  · simp only [rental_status_update]
    split_ifs <;> simp

/-- Witness for C1 amended: the sweep's settlement of `sampleRental` derives
the fields from the ledger, and the concrete manual return of `sampleRental`
leaves its financial fields untouched. -/
theorem C1_amended_refresh_only_in_sweep_witness :
    ((settle_completed_rental sampleRental sampleCustomer [sampleCharge] 99).rental =
       sampleRental.refresh_financials
         (settle_completed_rental sampleRental sampleCustomer [sampleCharge] 99).payments 99)
  ∧ sampleReturned.amount_paid = sampleRental.amount_paid := by
  have h := C1_amended_refresh_only_in_sweep sampleRental sampleCustomer sampleVehicle
    [sampleCharge] 99 20 10 RentalStatus.COMPLETED
  exact ⟨h.1, (h.2.1 (sampleReturned, { sampleVehicle with status := .AVAILABLE }) rfl).1⟩

/-- Writing one vehicle's status does not change lookups of other vehicles. -/
theorem getVehicle_set_ne (vs : List Vehicle) (vid1 vid2 : Nat) (st : VehicleStatus)
    (h : vid1 ≠ vid2) :
    getVehicle (setVehicleStatus vs vid1 st) vid2 = getVehicle vs vid2 := by
  unfold getVehicle setVehicleStatus
  rw [List.find?_map]
  have hp : ((fun v : Vehicle => decide (v.id = vid2)) ∘
      fun v : Vehicle => if v.id = vid1 then { v with status := st } else v) =
      fun v : Vehicle => decide (v.id = vid2) := by
    funext v
    by_cases hv : v.id = vid1 <;> simp [hv]
  rw [hp]
  cases hfind : List.find? (fun v => decide (v.id = vid2)) vs with
  | none => rfl
  | some v0 =>
      have hv0 : v0.id = vid2 := by simpa using List.find?_some hfind
      have hne : ¬v0.id = vid1 := by
        rw [hv0]
        exact fun hh => h hh.symm
      simp [hne]

/-- The release loop never touches a vehicle that still has an `ONGOING`
order in the rental table it counts against. -/
theorem release_keeps_busy (rs : List Rental) (vid : Nat)
    (hbusy : ∃ r ∈ rs, r.vehicleId = vid ∧ r.status = .ONGOING) :
    ∀ (vids : List Nat) (acc : List Vehicle × Nat),
      getVehicle (vids.foldl (releaseStep rs) acc).1 vid = getVehicle acc.1 vid := by
  intro vids
  induction vids with
  | nil => intro acc; rfl
  | cons a l ih =>
      intro acc
      rw [List.foldl_cons, ih]
      simp only [releaseStep]
      by_cases hz :
          (rs.filter (fun r => decide (r.vehicleId = a ∧ r.status = .ONGOING))).length = 0
      · have ha : a ≠ vid := by
          intro he
          subst he
          obtain ⟨r0, hr0, hv, hs⟩ := hbusy
          have hmem : r0 ∈ rs.filter (fun r => decide (r.vehicleId = a ∧ r.status = .ONGOING)) :=
            List.mem_filter.mpr ⟨hr0, by simp [hv, hs]⟩
          rw [List.length_eq_zero] at hz
          rw [hz] at hmem
          exact List.not_mem_nil _ hmem
        rw [if_pos hz]
        cases hvv : getVehicle acc.1 a with
        | none => rfl
        | some v =>
            dsimp only
            by_cases hr : v.status = .RENTED
            · rw [if_pos hr]
              exact getVehicle_set_ne acc.1 a vid .AVAILABLE ha
            · rw [if_neg hr]
      · rw [if_neg hz]

/-- `releaseVehicles` never touches a vehicle that still has an `ONGOING`
order. -/
theorem releaseVehicles_keeps_busy (rs : List Rental) (vs : List Vehicle)
    (vids : List Nat) (vid : Nat)
    (hbusy : ∃ r ∈ rs, r.vehicleId = vid ∧ r.status = .ONGOING) :
    getVehicle (releaseVehicles rs vs vids).1 vid = getVehicle vs vid :=
  release_keeps_busy rs vid hbusy vids (vs, 0)

/-- C2 counterexample: the manual return of `sampleRental` sets its vehicle
`AVAILABLE` even though `sampleRentalB` — a different order on the very same
vehicle — is still `ONGOING`; the vehicle does not stay `RENTED`. -/
theorem C2_return_ignores_other_active_orders :
    rental_return sampleRental sampleVehicle 20 10 =
      .ok (sampleReturned, { sampleVehicle with status := .AVAILABLE })
  ∧ sampleRentalB.vehicleId = sampleRental.vehicleId
  ∧ sampleRentalB.id ≠ sampleRental.id
  ∧ sampleRentalB.status = .ONGOING
  ∧ ({ sampleVehicle with status := .AVAILABLE } : Vehicle).status ≠ .RENTED :=
  ⟨rfl, rfl, by decide, rfl, by decide⟩

/-- C2 amended: only the sweep's completion phase releases vehicles
conditionally — a vehicle with a remaining `ONGOING` order is left exactly
as it was — while the manual return sets the vehicle `AVAILABLE`
unconditionally, whatever other orders exist; and the explicit transition to
`COMPLETED` performs no vehicle release at all, its release branch being
dead because `old_status` is read after the form has already applied the
new status. -/
theorem C2_conditional_release_only_in_sweep (db : DB) (cs : List Customer)
    (today now : ℤ) :
    (∀ vid : Nat,
       (∃ r ∈ (completePhase db cs today now).1.rentals,
          r.vehicleId = vid ∧ r.status = .ONGOING) →
       getVehicle (completePhase db cs today now).1.vehicles vid =
         getVehicle db.vehicles vid)
  ∧ (∀ (r : Rental) (v : Vehicle) (today' d : ℤ) (out : Rental × Vehicle),
       rental_return r v today' d = .ok out → out.2.status = .AVAILABLE)
  ∧ (∀ (r : Rental) (v : Vehicle),
       (rental_status_update r v .COMPLETED).2 = v) := by
  refine ⟨?_, ?_, ?_⟩
  · intro vid hbusy
    have hrent : (completePhase db cs today now).1.rentals =
        db.rentals.map (completeRentalFn db cs today now) := rfl
    have hveh : (completePhase db cs today now).1.vehicles =
        (releaseVehicles (db.rentals.map (completeRentalFn db cs today now)) db.vehicles
          (((db.rentals.filter (expiredFilter today)).map (fun r => r.vehicleId)).dedup)).1 :=
      rfl
    rw [hveh]
    exact releaseVehicles_keeps_busy _ _ _ _ (hrent ▸ hbusy)
  · intro r v today' d out hout
    simp only [rental_return] at hout
    split at hout
    · exact Except.noConfusion hout
    · simp only [Except.ok.injEq] at hout
      subst hout
      rfl
  · intro r v
    simp [rental_status_update]

/-- Witness for C2 amended: completing the expired order of `sampleDB` by
sweep leaves the shared vehicle untouched because `sampleRentalLong` is
still running, while the concrete manual return released it and the
concrete transition to completed left the vehicle as it was. -/
theorem C2_conditional_release_only_in_sweep_witness :
    getVehicle (completePhase sampleDB [sampleCustomer] 20 99).1.vehicles 1 =
      getVehicle sampleDB.vehicles 1
  ∧ (sampleReturned, ({ sampleVehicle with status := .AVAILABLE } : Vehicle)).2.status
      = .AVAILABLE
  ∧ (rental_status_update sampleRental sampleVehicle .COMPLETED).2 = sampleVehicle := by
  have h := C2_conditional_release_only_in_sweep sampleDB [sampleCustomer] 20 99
  refine ⟨h.1 1 ⟨sampleRentalLong, ?_, rfl, rfl⟩,
    h.2.1 sampleRental sampleVehicle 20 10
      (sampleReturned, { sampleVehicle with status := .AVAILABLE }) rfl,
    h.2.2 sampleRental sampleVehicle⟩
  exact List.mem_cons_of_mem _ (List.mem_cons_self _ _)

/-- C3 counterexample: cancelling an order that is already `COMPLETED` — a
terminal state — succeeds and moves its lifecycle status to `CANCELLED`. -/
theorem C3_cancel_leaves_terminal_state :
    sampleCompleted.status = .COMPLETED
  ∧ rental_cancel sampleCompleted sampleVehicle ("需求变更") =
      .ok (sampleCancelled, { sampleVehicle with status := .AVAILABLE })
  ∧ sampleCancelled.status = .CANCELLED
  ∧ sampleCancelled.status ≠ sampleCompleted.status := by
  refine ⟨rfl, rfl, ?_, ?_⟩
  · simp [sampleCancelled]
  · simp [sampleCancelled, sampleCompleted, sampleRental]

/-- A terminal order is not matched by the activation filter. -/
theorem pendingFilter_false_of_terminal (today : ℤ) (r : Rental)
    (hterm : r.status = .COMPLETED ∨ r.status = .CANCELLED) :
    pendingFilter today r = false := by
  simp only [pendingFilter, decide_eq_false_iff_not]
  rintro ⟨hp, -⟩
  rcases hterm with h | h <;> rw [h] at hp <;> exact RentalStatus.noConfusion hp

/-- A terminal order is not matched by the completion filter. -/
theorem expiredFilter_false_of_terminal (today : ℤ) (r : Rental)
    (hterm : r.status = .COMPLETED ∨ r.status = .CANCELLED) :
    expiredFilter today r = false := by
  simp only [expiredFilter, decide_eq_false_iff_not]
  rintro ⟨hp, -⟩
  rcases hterm with h | h <;> rw [h] at hp <;> exact RentalStatus.noConfusion hp

/-- C3 amended: the batch sweep never changes the status of an order that is
already `COMPLETED` or `CANCELLED`, but the manual operations are
unguarded — a successful cancel moves any order (a completed one included)
to `CANCELLED`, and a successful return moves any order (a cancelled one
included) to `COMPLETED`. -/
theorem C3_terminal_immutable_only_in_sweep (db : DB) (cs : List Customer)
    (today now : ℤ) :
    ((sweep db cs today now).1.rentals = db.rentals.map (sweepStep db cs today now))
  ∧ (∀ r : Rental, r.status = .COMPLETED ∨ r.status = .CANCELLED →
       sweepStep db cs today now r = r)
  ∧ (∀ (r : Rental) (v : Vehicle) (reason : String) (out : Rental × Vehicle),
       rental_cancel r v reason = .ok out → out.1.status = .CANCELLED)
  ∧ (∀ (r : Rental) (v : Vehicle) (today' d : ℤ) (out : Rental × Vehicle),
       rental_return r v today' d = .ok out → out.1.status = .COMPLETED) := by
  refine ⟨?_, ?_, ?_, ?_⟩
  · have h1 : (sweep db cs today now).1.rentals =
        (db.rentals.map (activateFn db today)).map
          (completeRentalFn (activatePhase db today).1 cs today now) := rfl
    rw [h1, List.map_map]
    rfl
  · intro r hterm
    have h1 : activateFn db today r = r := by
      unfold activateFn
      rw [pendingFilter_false_of_terminal today r hterm]
      rfl
    have h2 : completeRentalFn (activatePhase db today).1 cs today now r = r := by
      unfold completeRentalFn
      rw [expiredFilter_false_of_terminal today r hterm]
      rfl
    unfold sweepStep
    rw [h1, h2]
  · intro r v reason out hout
    simp only [rental_cancel] at hout
    split at hout
    · exact Except.noConfusion hout
    · simp only [Except.ok.injEq] at hout
      subst hout
      simp
  · intro r v today' d out hout
    simp only [rental_return] at hout
    split at hout
    · exact Except.noConfusion hout
    · simp only [Except.ok.injEq] at hout
      subst hout
      simp

/-- Witness for C3 amended: the sweep leaves the completed `sampleCompleted`
untouched, while the concrete cancel and return calls moved terminal or
arbitrary orders into `CANCELLED` and `COMPLETED`. -/
theorem C3_terminal_immutable_only_in_sweep_witness :
    sweepStep sampleDB [sampleCustomer] 20 99 sampleCompleted = sampleCompleted
  ∧ sampleCancelled.status = .CANCELLED
  ∧ sampleReturned.status = .COMPLETED := by
  have h := C3_terminal_immutable_only_in_sweep sampleDB [sampleCustomer] 20 99
  exact ⟨h.2.1 sampleCompleted (Or.inl rfl),
    h.2.2.1 sampleCompleted sampleVehicle ("需求变更")
      (sampleCancelled, { sampleVehicle with status := .AVAILABLE }) rfl,
    h.2.2.2 sampleRental sampleVehicle 20 10
      (sampleReturned, { sampleVehicle with status := .AVAILABLE }) rfl⟩

/-- The settled order returned by `_settle_completed_rental` always carries
the financial fields derived from the final ledger. -/
theorem settle_rental_refresh (r : Rental) (c : Customer) (ps : List Payment)
    (now : ℤ) :
    (settle_completed_rental r c ps now).rental =
      r.refresh_financials (settle_completed_rental r c ps now).payments now := by
  by_cases hc : r.deposit > 0 ∧ r.deposit - refundTotalRefunded ps r.id > 0
      ∧ chargeTotalPaid ps r.id ≥ r.deposit
  · rcases hattr : refundAttribution ps r.id c with _ | u
    · rw [settle_eq_of_no_account r c ps now hc hattr]
    · rw [settle_eq_of_account r c ps now u hc hattr]
  · rw [settle_eq_of_guard_false r c ps now hc]

/-- Phase 2's per-order completion always produces a `COMPLETED` order. -/
theorem completeFn_rental_status (db : DB) (cs : List Customer) (today now : ℤ)
    (r : Rental) :
    (completeFn db cs today now r).rental.status = .COMPLETED := by
  unfold completeFn
  rw [settle_rental_refresh]
  simp

/-- A rental not matched by the activation filter is left untouched by
phase 1. -/
theorem activateFn_of_false (db : DB) (today : ℤ) (r : Rental)
    (h : pendingFilter today r = false) : activateFn db today r = r := by
  unfold activateFn
  rw [h]
  rfl

/-- A rental matched by the activation filter is saved as `ONGOING`. -/
theorem activateFn_status_of_true (db : DB) (today : ℤ) (r : Rental)
    (h : pendingFilter today r = true) : (activateFn db today r).status = .ONGOING := by
  unfold activateFn
  rw [h]
  simp

/-- After one whole sweep pass over an order, neither the activation filter
nor the completion filter matches it any more. -/
theorem sweepStep_filters_false (db : DB) (cs : List Customer) (today now : ℤ)
    (r : Rental) :
    pendingFilter today (sweepStep db cs today now r) = false
  ∧ expiredFilter today (sweepStep db cs today now r) = false := by
  unfold sweepStep completeRentalFn
  cases he : expiredFilter today (activateFn db today r) with
  | true =>
      rw [if_pos rfl]
      have hterm : ((completeFn (activatePhase db today).1 cs today now
          (activateFn db today r)).rental.status = .COMPLETED ∨
          (completeFn (activatePhase db today).1 cs today now
          (activateFn db today r)).rental.status = .CANCELLED) :=
        Or.inl (completeFn_rental_status _ cs today now _)
      exact ⟨pendingFilter_false_of_terminal today _ hterm,
        expiredFilter_false_of_terminal today _ hterm⟩
  | false =>
      rw [if_neg Bool.false_ne_true]
      refine ⟨?_, he⟩
      cases hp : pendingFilter today r with
      | true =>
          simp only [pendingFilter, decide_eq_false_iff_not]
          rintro ⟨hst, -⟩
          rw [activateFn_status_of_true db today r hp] at hst
          exact RentalStatus.noConfusion hst
      | false =>
          rw [activateFn_of_false db today r hp]
          exact hp

/-- One whole sweep is, on the rental table, the pointwise map of
`sweepStep`. -/
theorem sweep_rentals_map (db : DB) (cs : List Customer) (today now : ℤ) :
    (sweep db cs today now).1.rentals = db.rentals.map (sweepStep db cs today now) := by
  have h1 : (sweep db cs today now).1.rentals =
      (db.rentals.map (activateFn db today)).map
        (completeRentalFn (activatePhase db today).1 cs today now) := rfl
  rw [h1, List.map_map]
  rfl

/-- Two sweep summaries are equal when all four counts are. -/
theorem SweepSummary.eq_of_counts {a b : SweepSummary}
    (h1 : a.activated_rentals = b.activated_rentals)
    (h2 : a.activated_vehicles = b.activated_vehicles)
    (h3 : a.completed_rentals = b.completed_rentals)
    (h4 : a.released_vehicles = b.released_vehicles) : a = b := by
  cases a; cases b; simp_all

/-- C7: the sweep is idempotent — whatever the starting state and (fixed)
current date, a second sweep run right after a first one activates no
order, rents no vehicle, completes no order and releases no vehicle: its
summary is all zeros. -/
theorem C7_sweep_idempotent (db : DB) (cs cs2 : List Customer) (today now now2 : ℤ) :
    (sweep (sweep db cs today now).1 cs2 today now2).2 =
      { activated_rentals := 0, activated_vehicles := 0,
        completed_rentals := 0, released_vehicles := 0 } := by
  have hstep : ∀ r ∈ (sweep db cs today now).1.rentals,
      pendingFilter today r = false ∧ expiredFilter today r = false := by
    intro r hr
    rw [sweep_rentals_map] at hr
    obtain ⟨r0, _, rfl⟩ := List.mem_map.mp hr
    exact sweepStep_filters_false db cs today now r0
  set db1 := (sweep db cs today now).1 with hdb1
  have hpend : db1.rentals.filter (pendingFilter today) = [] :=
    List.filter_eq_nil_iff.mpr fun r hr => by simp [(hstep r hr).1]
  have hA : (activatePhase db1 today).1.rentals = db1.rentals.map (activateFn db1 today) :=
    rfl
  have hexp : (activatePhase db1 today).1.rentals.filter (expiredFilter today) = [] := by
    rw [hA]
    refine List.filter_eq_nil_iff.mpr fun x hx => ?_
    obtain ⟨r0, hr0, rfl⟩ := List.mem_map.mp hx
    rw [activateFn_of_false db1 today r0 (hstep r0 hr0).1]
    simp [(hstep r0 hr0).2]
  apply SweepSummary.eq_of_counts
  · show (db1.rentals.filter (pendingFilter today)).length = 0
    rw [hpend]
    rfl
  · show ((db1.rentals.filter (pendingFilter today)).foldl
        (activateVehicleStep db1) (db1.vehicles, 0)).2 = 0
    rw [hpend]
    rfl
  · show ((activatePhase db1 today).1.rentals.filter (expiredFilter today)).length = 0
    rw [hexp]
    rfl
  · show (releaseVehicles
        ((activatePhase db1 today).1.rentals.map
          (completeRentalFn (activatePhase db1 today).1 cs2 today now2))
        (activatePhase db1 today).1.vehicles
        ((((activatePhase db1 today).1.rentals.filter (expiredFilter today)).map
          (fun r => r.vehicleId)).dedup)).2 = 0
    rw [hexp]
    rfl

end CarRental
